import Mathlib

/-!
Verification of the core behavior of the Python Ireland talk database
(FastAPI backend + React frontend). The development shallowly embeds the
program's data model and operations: the frontend TypeScript helpers are
translated directly from the source, while backend operations whose Python
implementation is not part of the file set are modelled from the
specification (each such definition carries a doc comment saying so).
Machine integers do not overflow in any code path modelled here, so
timestamps and ids are plain naturals.
-/

namespace TalkDB

/-! ### Character-level string utilities -/

/-- Boolean test that the first list is an initial segment of the second. -/
def leadsWith : List Char → List Char → Bool
  | [], _ => true
  | _ :: _, [] => false
  | p :: ps, t :: ts => p == t && leadsWith ps ts

/-- Boolean test that `pat` occurs as a contiguous substring of the text. -/
def occursIn (pat : List Char) : List Char → Bool
  | [] => leadsWith pat []
  | c :: ts => leadsWith pat (c :: ts) || occursIn pat ts

/-- Lower-case every character of a character list. -/
def lowerChars (l : List Char) : List Char := l.map Char.toLower

/-! ### Auto-tagger -/

/-- Modelled from the spec: the fixed keyword table of
`TalkDomainService.extract_auto_tags` (the backend module
`backend/domain/services/talk_domain_service.py` is not among the source
files; only its declaration and callers are). Six fixed categories, each
with a lower-case keyword list. -/
def categoryKeywords : List (String × List String) :=
  [("AI/ML", ["machine learning", "artificial intelligence", "neural",
              "tensorflow", "pytorch", "llm"]),
   ("Web Development", ["django", "flask", "fastapi", "web", "api", "http"]),
   ("Data Science", ["pandas", "numpy", "data", "jupyter", "visualization"]),
   ("Testing", ["pytest", "tdd", "unit test", "quality assurance"]),
   ("DevOps", ["docker", "kubernetes", "deployment", "devops", "ci/cd"]),
   ("Python Core", ["asyncio", "typing", "decorator", "generator", "interpreter"])]

/-- The fixed category label set of the auto-tagger. -/
def categoryLabels : List String := categoryKeywords.map Prod.fst

/-- Lower-cased concatenation of title and description, the text the
auto-tagger scans (the repository's `Talk.has_keyword` documents the shape
`title description` joined by a space, lower-cased). -/
def taggerText (title description : String) : List Char :=
  lowerChars (title.data ++ ' ' :: description.data)

/-- Modelled from the spec: `extract_auto_tags(title, description)` — for each
fixed category, include its label iff any of its keywords occurs as a
substring of the lower-cased concatenated text. Pure membership test, no
scoring, no failure mode. -/
def extract_auto_tags (title description : String) : List String :=
  (categoryKeywords.filter fun c =>
    c.2.any fun k => occursIn k.data (taggerText title description)).map Prod.fst

/-- C1: for every pair of strings, `extract_auto_tags` returns a subset of the
fixed category label set, and the empty inputs yield the empty tag set. The
embedding as a total Lean function witnesses purity and absence of failure
modes. -/
theorem extract_auto_tags_subset_and_empty (title description : String) :
    extract_auto_tags title description ⊆ categoryLabels
      ∧ extract_auto_tags "" "" = [] := by
  constructor
  · intro x hx
    rcases List.mem_map.1 hx with ⟨c, hc, rfl⟩
    exact List.mem_map_of_mem Prod.fst (List.mem_of_mem_filter hc)
  · decide

/-! ### Data model -/

/-- A stored talk row (section 3 of the spec; timestamps are naturals, the
wall-clock columns not read by any operation here are omitted). -/
structure Talk where
  id : String
  title : String
  description : String
  talk_type : String
  speaker_names : List String
  source_type : Option String
  source_id : Option String
  source_updated_at : Nat
  type_specific_data : List (String × String)
  auto_tags : List String
deriving DecidableEq

/-- A taxonomy row. -/
structure Taxonomy where
  id : Nat
  name : String
  description : String
  created_by : String
  is_system : Bool
deriving DecidableEq

/-- A taxonomy value row, owned by one taxonomy. -/
structure TaxonomyValue where
  id : Nat
  taxonomy_id : Nat
  value : String
  description : String
  color : String
deriving DecidableEq

/-- One association row: this talk is tagged with this taxonomy value. -/
structure TalkTag where
  talk_id : String
  taxonomy_value_id : Nat
deriving DecidableEq

/-- The relational store: talk rows, taxonomy rows, value rows, association
rows, and the id source for freshly inserted talks. -/
structure DB where
  talks : List Talk
  taxonomies : List Taxonomy
  values : List TaxonomyValue
  assocs : List TalkTag
  nextId : Nat
deriving DecidableEq

/-- A normalized incoming talk record handed to the upsert engine. -/
structure NormalizedTalk where
  source_type : Option String
  source_id : Option String
  title : String
  description : String
  talk_type : String
  speaker_names : List String
  source_updated_at : Nat
  type_specific_data : List (String × String)
deriving DecidableEq

/-! ### Upsert engine -/

/-- Source-identity match: a stored talk matches the incoming record iff the
record carries both source fields and they equal the stored ones; a record
with a missing source field never matches (it is always a fresh insert). -/
def sameSource (r : NormalizedTalk) (t : Talk) : Bool :=
  match r.source_type, r.source_id with
  | some st, some sid => t.source_type == some st && t.source_id == some sid
  | _, _ => false

/-- Modelled from the spec: the update-decision rule
`_should_update_talk(existing, new)` of the data pipeline (the backend module
`lib/engine/data_pipeline.py` is not among the source files) — update only if
the incoming source-side timestamp is strictly newer, or a force field
(title or description) differs. -/
def should_update_talk (t : Talk) (r : NormalizedTalk) : Bool :=
  decide (t.source_updated_at < r.source_updated_at)
    || r.title != t.title || r.description != t.description

/-- Merge of `type_specific_data`: new keys override matching old keys,
unspecified old keys persist. -/
def mergeData (old new : List (String × String)) : List (String × String) :=
  new ++ old.filter fun kv => new.all fun kv2 => kv2.1 != kv.1

/-- The fresh row inserted for an unmatched incoming record. -/
def newTalkFrom (r : NormalizedTalk) (nid : String) : Talk :=
  { id := nid
    title := r.title
    description := r.description
    talk_type := r.talk_type
    speaker_names := r.speaker_names
    source_type := r.source_type
    source_id := r.source_id
    source_updated_at := r.source_updated_at
    type_specific_data := r.type_specific_data
    auto_tags := extract_auto_tags r.title r.description }

/-- In-place update of a matched row: content and source timestamp are taken
from the incoming record, `type_specific_data` is merged, auto tags are
recomputed; id and source identity are untouched. -/
def updateTalk (t : Talk) (r : NormalizedTalk) : Talk :=
  { t with
      title := r.title
      description := r.description
      source_updated_at := r.source_updated_at
      type_specific_data := mergeData t.type_specific_data r.type_specific_data
      auto_tags := extract_auto_tags r.title r.description }

/-- Modelled from the spec: `upsert_talk(talk) -> TalkId` (the backend
repository implementation is not among the source files) — look up the
existing talk by (source_type, source_id); if absent insert a new row with a
freshly generated id, if present update it only when the update-decision rule
fires. Returns the new store and the id of the affected row. -/
def applyToMatches (r : NormalizedTalk) (l : List Talk) : List Talk :=
  l.map fun u => if sameSource r u then updateTalk u r else u

def upsert_talk (db : DB) (r : NormalizedTalk) : DB × String :=
  match db.talks.find? (sameSource r) with
  | some t =>
    if should_update_talk t r then
      ({ db with talks := applyToMatches r db.talks }, t.id)
    else (db, t.id)
  | none =>
    let nid := "talk-" ++ toString db.nextId
    ({ db with
         talks := db.talks ++ [newTalkFrom r nid]
         nextId := db.nextId + 1 }, nid)

/-! ### Helper lemmas about the upsert engine -/

theorem find?_map_congr {α : Type} (f : α → α) (p : α → Bool)
    (h : ∀ u, p (f u) = p u) (l : List α) :
    (l.map f).find? p = (l.find? p).map f := by
  induction l with
  | nil => rfl
  | cons a l ih =>
    simp only [List.map_cons, List.find?]
    rw [h a]
    cases hp : p a
    · simpa using ih
    · rfl

theorem length_filter_map_congr {α : Type} (f : α → α) (p : α → Bool)
    (h : ∀ u, p (f u) = p u) (l : List α) :
    ((l.map f).filter p).length = (l.filter p).length := by
  induction l with
  | nil => rfl
  | cons a l ih =>
    simp only [List.map_cons, List.filter_cons, h a]
    cases hp : p a <;> simp [hp, ih]

theorem find?_append_of_none {α : Type} {p : α → Bool} {l₁ : List α}
    (l₂ : List α) (h : l₁.find? p = none) :
    (l₁ ++ l₂).find? p = l₂.find? p := by
  induction l₁ with
  | nil => rfl
  | cons a l ih =>
    cases hp : p a
    · have h2 : l.find? p = none := by
        simpa [List.find?, hp] using h
      simpa [List.cons_append, List.find?, hp] using ih h2
    · exfalso
      simp [List.find?, hp] at h

theorem eq_singleton_of_length_le_one {α : Type} {l : List α} {t : α}
    (hle : l.length ≤ 1) (ht : t ∈ l) : l = [t] := by
  cases l with
  | nil => cases ht
  | cons a l2 =>
    cases l2 with
    | nil => rw [List.mem_singleton.1 ht]
    | cons b l3 => simp at hle

theorem sameSource_updateTalk (r : NormalizedTalk) (u : Talk) :
    sameSource r (updateTalk u r) = sameSource r u := by
  cases h1 : r.source_type <;> cases h2 : r.source_id <;>
    simp [sameSource, updateTalk, h1, h2]

theorem sameSource_upd_fun (r : NormalizedTalk) (u : Talk) :
    sameSource r (if sameSource r u then updateTalk u r else u) = sameSource r u := by
  cases hu : sameSource r u <;> simp [hu, sameSource_updateTalk]

theorem find?_applyToMatches {r : NormalizedTalk} {l : List Talk} {t : Talk}
    (hf : l.find? (sameSource r) = some t) :
    (applyToMatches r l).find? (sameSource r) = some (updateTalk t r) := by
  unfold applyToMatches
  rw [find?_map_congr _ _ (sameSource_upd_fun r) l, hf]
  have hpt : sameSource r t = true := List.find?_some hf
  simp [hpt]

theorem length_filter_applyToMatches (r : NormalizedTalk) (l : List Talk) :
    ((applyToMatches r l).filter (sameSource r)).length
      = (l.filter (sameSource r)).length :=
  length_filter_map_congr _ _ (sameSource_upd_fun r) l

theorem sameSource_newTalkFrom {r : NormalizedTalk} {st sid : String}
    (hst : r.source_type = some st) (hsid : r.source_id = some sid)
    (nid : String) : sameSource r (newTalkFrom r nid) = true := by
  simp [sameSource, newTalkFrom, hst, hsid]

theorem should_update_newTalkFrom (r : NormalizedTalk) (nid : String) :
    should_update_talk (newTalkFrom r nid) r = false := by
  simp [should_update_talk, newTalkFrom]

theorem should_update_updateTalk (t : Talk) (r : NormalizedTalk) :
    should_update_talk (updateTalk t r) r = false := by
  simp [should_update_talk, updateTalk]

theorem upsert_eq_found_no (db : DB) (r : NormalizedTalk) (t : Talk)
    (hf : db.talks.find? (sameSource r) = some t)
    (hsu : should_update_talk t r = false) :
    upsert_talk db r = (db, t.id) := by
  simp [upsert_talk, hf, hsu]

theorem upsert_eq_found_yes (db : DB) (r : NormalizedTalk) (t : Talk)
    (hf : db.talks.find? (sameSource r) = some t)
    (hsu : should_update_talk t r = true) :
    upsert_talk db r = ({ db with talks := applyToMatches r db.talks }, t.id) := by
  simp [upsert_talk, hf, hsu]

theorem upsert_eq_notfound (db : DB) (r : NormalizedTalk)
    (hf : db.talks.find? (sameSource r) = none) :
    upsert_talk db r
      = ({ db with
             talks := db.talks ++ [newTalkFrom r ("talk-" ++ toString db.nextId)]
             nextId := db.nextId + 1 }, "talk-" ++ toString db.nextId) := by
  simp [upsert_talk, hf]

/-- C2: upserting the same normalized record (with both source fields
present) twice against a store satisfying the source-identity uniqueness
invariant leaves exactly one stored row for that source identity, and the
id returned by the second call equals the id assigned by the first call. -/
theorem upsert_twice_one_row (db : DB) (r : NormalizedTalk) (st sid : String)
    (hst : r.source_type = some st) (hsid : r.source_id = some sid)
    (hinv : (db.talks.filter (sameSource r)).length ≤ 1) :
    ((upsert_talk (upsert_talk db r).1 r).1.talks.filter (sameSource r)).length = 1
      ∧ (upsert_talk (upsert_talk db r).1 r).2 = (upsert_talk db r).2 := by
  cases hf : db.talks.find? (sameSource r) with
  | none =>
    have hnil : db.talks.filter (sameSource r) = [] := by
      rw [List.filter_eq_nil_iff]
      intro a ha
      simpa using List.find?_eq_none.1 hf a ha
    have e1 := upsert_eq_notfound db r hf
    have hfs : ({ db with
        talks := db.talks ++ [newTalkFrom r ("talk-" ++ toString db.nextId)]
        nextId := db.nextId + 1 } : DB).talks.find? (sameSource r)
        = some (newTalkFrom r ("talk-" ++ toString db.nextId)) := by
      dsimp only
      rw [find?_append_of_none _ hf]
      simp [List.find?, sameSource_newTalkFrom hst hsid]
    have e2 := upsert_eq_found_no _ r _ hfs (should_update_newTalkFrom r _)
    rw [e1]
    dsimp only
    rw [e2]
    dsimp only
    constructor
    · rw [List.filter_append, hnil]
      simp [sameSource_newTalkFrom hst hsid]
    · simp [newTalkFrom]
  | some t =>
    have hpt : sameSource r t = true := List.find?_some hf
    have hone : db.talks.filter (sameSource r) = [t] :=
      eq_singleton_of_length_le_one hinv
        (List.mem_filter.2 ⟨List.mem_of_find?_eq_some hf, hpt⟩)
    cases hsu : should_update_talk t r with
    | false =>
      have e1 := upsert_eq_found_no db r t hf hsu
      rw [e1]
      dsimp only
      rw [e1]
      dsimp only
      exact ⟨by rw [hone]; rfl, rfl⟩
    | true =>
      have e1 := upsert_eq_found_yes db r t hf hsu
      have hf2 : ({ db with talks := applyToMatches r db.talks } : DB).talks.find?
          (sameSource r) = some (updateTalk t r) := by
        dsimp only
        exact find?_applyToMatches hf
      have e2 := upsert_eq_found_no _ r _ hf2 (should_update_updateTalk t r)
      rw [e1]
      dsimp only
      rw [e2]
      dsimp only
      constructor
      · rw [length_filter_applyToMatches, hone]
        rfl
      · rfl

/-- C3: against a store holding a row matched by source identity, an upsert
with a strictly newer source timestamp rewrites the stored title to the
incoming title, while an upsert with an older-or-equal timestamp and
unchanged force fields (title, description) leaves the stored title
unchanged. -/
theorem upsert_update_decision (db : DB) (r : NormalizedTalk) (t : Talk)
    (hf : db.talks.find? (sameSource r) = some t) :
    (t.source_updated_at < r.source_updated_at →
        ((upsert_talk db r).1.talks.find? (sameSource r)).map Talk.title
          = some r.title)
      ∧ (r.source_updated_at ≤ t.source_updated_at → r.title = t.title →
          r.description = t.description →
          ((upsert_talk db r).1.talks.find? (sameSource r)).map Talk.title
            = some t.title) := by
  constructor
  · intro hlt
    have hsu : should_update_talk t r = true := by
      simp [should_update_talk, hlt]
    rw [upsert_eq_found_yes db r t hf hsu]
    dsimp only
    rw [find?_applyToMatches hf]
    simp [updateTalk]
  · intro hle h1 h2
    have hsu : should_update_talk t r = false := by
      simp [should_update_talk, h1, h2, Nat.not_lt.2 hle]
    rw [upsert_eq_found_no db r t hf hsu]
    dsimp only
    rw [hf]
    rfl

/-! ### Concrete fixtures for witnesses -/

def sampleRecord : NormalizedTalk :=
  { source_type := some "meetup"
    source_id := some "123"
    title := "Intro to FastAPI"
    description := "building APIs"
    talk_type := "meetup"
    speaker_names := ["Ada"]
    source_updated_at := 100
    type_specific_data := [("venue_name", "Dogpatch")] }

def emptyDB : DB :=
  { talks := [], taxonomies := [], values := [], assocs := [], nextId := 0 }

def storedTalk : Talk :=
  { id := "talk-0"
    title := "Old Title"
    description := "old desc"
    talk_type := "meetup"
    speaker_names := ["Ada"]
    source_type := some "meetup"
    source_id := some "123"
    source_updated_at := 100
    type_specific_data := []
    auto_tags := [] }

def oneTalkDB : DB :=
  { talks := [storedTalk], taxonomies := [], values := [], assocs := [], nextId := 1 }

def newerRecord : NormalizedTalk :=
  { source_type := some "meetup"
    source_id := some "123"
    title := "New Title"
    description := "old desc"
    talk_type := "meetup"
    speaker_names := ["Ada"]
    source_updated_at := 200
    type_specific_data := [] }

def staleRecord : NormalizedTalk :=
  { source_type := some "meetup"
    source_id := some "123"
    title := "Old Title"
    description := "old desc"
    talk_type := "meetup"
    speaker_names := ["Ada"]
    source_updated_at := 50
    type_specific_data := [] }

/-- Witness for C2 at a concrete record and an empty store. -/
theorem upsert_twice_one_row_witness :
    ((upsert_talk (upsert_talk emptyDB sampleRecord).1 sampleRecord).1.talks.filter
        (sameSource sampleRecord)).length = 1
      ∧ (upsert_talk (upsert_talk emptyDB sampleRecord).1 sampleRecord).2
          = (upsert_talk emptyDB sampleRecord).2 :=
  upsert_twice_one_row emptyDB sampleRecord "meetup" "123" rfl rfl (by decide)

/-- Witness for C3 at a concrete stored talk, one newer and one stale
incoming record. -/
theorem upsert_update_decision_witness :
    ((upsert_talk oneTalkDB newerRecord).1.talks.find?
        (sameSource newerRecord)).map Talk.title = some "New Title"
      ∧ ((upsert_talk oneTalkDB staleRecord).1.talks.find?
          (sameSource staleRecord)).map Talk.title = some "Old Title" :=
  ⟨(upsert_update_decision oneTalkDB newerRecord storedTalk (by decide)).1 (by decide),
   (upsert_update_decision oneTalkDB staleRecord storedTalk (by decide)).2
     (by decide) rfl rfl⟩

/-! ### Search engine -/

/-- Search response shape: the page of talks and the unconditional total. -/
structure SearchOut where
  talks : List Talk
  total : Nat
deriving DecidableEq

/-- Recognizer for the documented idiosyncratic convention: a query of the
form id:value parses to its value part, anything else to none. -/
def idQueryValue (q : String) : Option String :=
  if leadsWith ("id:".data) q.data then some (String.mk (q.data.drop 3))
  else none

/-- Modelled from the spec: the text filter of the search engine on the
fallback path — case-insensitive substring matching across
title/description (the derived search vector is their concatenation). -/
def matchesText (q : Option String) (t : Talk) : Bool :=
  match q with
  | none => true
  | some qs => occursIn (lowerChars qs.data) (taggerText t.title t.description)

/-- OR-filter over the talk_type column. -/
def matchesTypes (talk_types : List String) (t : Talk) : Bool :=
  talk_types.isEmpty || talk_types.any fun ty => ty == t.talk_type

/-- Tag filter: the talk must be associated, through the association table,
with a taxonomy value whose value equals one of the requested tags. -/
def matchesTags (db : DB) (tags : List String) (t : Talk) : Bool :=
  tags.isEmpty || tags.any fun tagv => db.assocs.any fun a =>
    a.talk_id == t.id && db.values.any fun v =>
      v.id == a.taxonomy_value_id && v.value == tagv

/-- Conjunction of all search filters. -/
def searchPred (db : DB) (q : Option String) (talk_types tags : List String)
    (t : Talk) : Bool :=
  matchesText q t && matchesTypes talk_types t && matchesTags db tags t

/-- Pagination applied to an already filtered list: the window plus the
pre-truncation count. -/
def paginateOut (l : List Talk) (limit offset : Nat) : SearchOut :=
  { talks := (l.drop offset).take limit, total := l.length }

/-- Modelled from the spec: the search operation (the backend repository
implementation is not among the source files) — a query of the form
id:value bypasses full search and fetches by id; otherwise the filters are
applied and only then the limit/offset window is cut, with total always the
filtered count. -/
def search (db : DB) (q : Option String) (talk_types tags : List String)
    (limit offset : Nat) : SearchOut :=
  match q with
  | some qs =>
    match idQueryValue qs with
    | some v =>
      let found := db.talks.filter fun t => t.id == v
      { talks := found, total := found.length }
    | none =>
      paginateOut (db.talks.filter (searchPred db (some qs) talk_types tags))
        limit offset
  | none =>
    paginateOut (db.talks.filter (searchPred db none talk_types tags))
      limit offset

/-- C4: a query of the form id:value fetches by id: under the id-uniqueness
invariant the result is exactly the one talk carrying that id when it
exists, and empty when no talk does. -/
theorem search_id_convention (db : DB) (q v : String)
    (talk_types tags : List String) (limit offset : Nat)
    (hq : idQueryValue q = some v)
    (hinv : (db.talks.filter fun t => t.id == v).length ≤ 1) :
    (∀ t ∈ db.talks, t.id = v →
        (search db (some q) talk_types tags limit offset).talks = [t])
      ∧ ((∀ t ∈ db.talks, t.id ≠ v) →
          (search db (some q) talk_types tags limit offset).talks = []) := by
  constructor
  · intro t ht hid
    simp only [search, hq]
    exact eq_singleton_of_length_le_one hinv
      (List.mem_filter.2 ⟨ht, by simp [hid]⟩)
  · intro hnone
    simp only [search, hq]
    rw [List.filter_eq_nil_iff]
    intro a ha
    simp [hnone a ha]

/-- C5: the total of a search response never depends on limit/offset, and on
the non-id path the returned page is exactly the limit/offset window of the
filtered list while total is the filtered count before truncation. -/
theorem search_pagination (db : DB) (q : Option String)
    (talk_types tags : List String) (limit offset : Nat) :
    (∀ limit2 offset2 : Nat,
        (search db q talk_types tags limit offset).total
          = (search db q talk_types tags limit2 offset2).total)
      ∧ ((q = none ∨ ∃ qs, q = some qs ∧ idQueryValue qs = none) →
          (search db q talk_types tags limit offset).talks
              = ((db.talks.filter (searchPred db q talk_types tags)).drop
                  offset).take limit
            ∧ (search db q talk_types tags limit offset).total
              = (db.talks.filter (searchPred db q talk_types tags)).length) := by
  constructor
  · intro limit2 offset2
    cases q with
    | none => rfl
    | some qs => cases hi : idQueryValue qs <;> simp [search, hi, paginateOut]
  · intro hfree
    rcases hfree with rfl | ⟨qs, rfl, hi⟩
    · exact ⟨rfl, rfl⟩
    · simp [search, hi, paginateOut]

theorem take_one_drop_one {α : Type} (l : List α) :
    (l.drop 1).take 1 = (l[1]?).toList := by
  cases l with
  | nil => rfl
  | cons a l2 =>
    cases l2 with
    | nil => rfl
    | cons b l3 => simp

/-- C6: with no writes in between, pagination windows a single ordered
result list: for a non-id query the single result of the page
limit 1 / offset 1 is exactly the second item of the full result list
(fetched with any limit of at least two). -/
theorem search_stable_window (db : DB) (qs : String)
    (talk_types tags : List String) (L : Nat)
    (hq : idQueryValue qs = none) (hL : 2 ≤ L) :
    (search db (some qs) talk_types tags 1 1).talks
      = ((search db (some qs) talk_types tags L 0).talks[1]?).toList := by
  simp only [search, hq, paginateOut]
  rw [List.drop_zero, List.getElem?_take, if_pos (show 1 < L by omega)]
  exact take_one_drop_one _

/-! ### Fixtures for the search witnesses -/

def talkA : Talk :=
  { id := "a"
    title := "Django tips"
    description := "web"
    talk_type := "meetup"
    speaker_names := []
    source_type := none
    source_id := none
    source_updated_at := 0
    type_specific_data := []
    auto_tags := [] }

def talkB : Talk :=
  { id := "b"
    title := "More Django"
    description := "web"
    talk_type := "meetup"
    speaker_names := []
    source_type := none
    source_id := none
    source_updated_at := 0
    type_specific_data := []
    auto_tags := [] }

def twoTalksDB : DB :=
  { talks := [talkA, talkB], taxonomies := [], values := [], assocs := [], nextId := 2 }

/-- Witness for C4 at a concrete store: a known id yields exactly that talk,
an unknown id yields no talk. -/
theorem search_id_convention_witness :
    (search oneTalkDB (some "id:talk-0") [] [] 20 0).talks = [storedTalk]
      ∧ (search oneTalkDB (some "id:nope") [] [] 20 0).talks = [] :=
  ⟨(search_id_convention oneTalkDB "id:talk-0" "talk-0" [] [] 20 0 (by decide)
      (by decide)).1 storedTalk (List.mem_singleton.2 rfl) rfl,
   (search_id_convention oneTalkDB "id:nope" "nope" [] [] 20 0 (by decide)
      (by decide)).2 (by decide)⟩

/-- Witness for C5 at a concrete store and non-id query. -/
theorem search_pagination_witness :
    (search twoTalksDB (some "django") [] [] 1 0).talks
        = ((twoTalksDB.talks.filter
            (searchPred twoTalksDB (some "django") [] [])).drop 0).take 1
      ∧ (search twoTalksDB (some "django") [] [] 1 0).total
        = (twoTalksDB.talks.filter
            (searchPred twoTalksDB (some "django") [] [])).length :=
  (search_pagination twoTalksDB (some "django") [] [] 1 0).2
    (Or.inr ⟨"django", rfl, by decide⟩)

/-- Witness for C6 at a concrete store where the query matches two talks. -/
theorem search_stable_window_witness :
    (search twoTalksDB (some "django") [] [] 1 1).talks
      = ((search twoTalksDB (some "django") [] [] 10 0).talks[1]?).toList :=
  search_stable_window twoTalksDB "django" [] [] 10 (by decide) (by decide)

/-! ### Taxonomy store: deletion cascade -/

/-- Modelled from the spec: deleting a Taxonomy cascades to delete its
Values and their association rows (the backend storage implementation is
not among the source files); talks and everything belonging to other
taxonomies are untouched. -/
def delete_taxonomy (db : DB) (tid : Nat) : DB :=
  let deadVals := db.values.filter fun v => v.taxonomy_id == tid
  { db with
      taxonomies := db.taxonomies.filter fun t => t.id != tid
      values := db.values.filter fun v => v.taxonomy_id != tid
      assocs := db.assocs.filter fun a =>
        !(deadVals.any fun v => v.id == a.taxonomy_value_id) }

/-- C7: deleting a taxonomy removes exactly its values and the association
rows referencing those values, removes the taxonomy row itself, and changes
nothing else — talks are untouched and rows belonging to other taxonomies
survive. -/
theorem delete_taxonomy_cascade (db : DB) (tid : Nat) :
    (delete_taxonomy db tid).talks = db.talks
      ∧ (∀ v ∈ (delete_taxonomy db tid).values, v.taxonomy_id ≠ tid)
      ∧ (∀ v ∈ db.values, v.taxonomy_id ≠ tid →
          v ∈ (delete_taxonomy db tid).values)
      ∧ (∀ a ∈ db.assocs,
          (∃ v ∈ db.values, v.id = a.taxonomy_value_id ∧ v.taxonomy_id = tid) →
          a ∉ (delete_taxonomy db tid).assocs)
      ∧ (∀ a ∈ db.assocs,
          (∀ v ∈ db.values, v.id = a.taxonomy_value_id → v.taxonomy_id ≠ tid) →
          a ∈ (delete_taxonomy db tid).assocs)
      ∧ (∀ t ∈ (delete_taxonomy db tid).taxonomies, t.id ≠ tid)
      ∧ (∀ t ∈ db.taxonomies, t.id ≠ tid →
          t ∈ (delete_taxonomy db tid).taxonomies) := by
  refine ⟨rfl, ?_, ?_, ?_, ?_, ?_, ?_⟩
  · intro v hv
    have := (List.mem_filter.1 hv).2
    simpa using this
  · intro v hv hne
    exact List.mem_filter.2 ⟨hv, by simpa using hne⟩
  · intro a ha ⟨v, hv, hvid, hvtid⟩ hmem
    have hkeep := (List.mem_filter.1 hmem).2
    rw [Bool.not_eq_eq_eq_not, Bool.not_true] at hkeep
    have : (db.values.filter fun v => v.taxonomy_id == tid).any
        (fun v => v.id == a.taxonomy_value_id) = true := by
      rw [List.any_eq_true]
      exact ⟨v, List.mem_filter.2 ⟨hv, by simp [hvtid]⟩, by simp [hvid]⟩
    rw [this] at hkeep
    cases hkeep
  · intro a ha hother
    refine List.mem_filter.2 ⟨ha, ?_⟩
    rw [Bool.not_eq_eq_eq_not, Bool.not_true, List.any_eq_false]
    intro v hv
    have hmem := (List.mem_filter.1 hv).1
    have htid : v.taxonomy_id = tid := by
      have := (List.mem_filter.1 hv).2
      simpa using this
    have := hother v hmem
    simp only [beq_iff_eq]
    intro hvid
    exact (this hvid) htid
  · intro t ht
    have := (List.mem_filter.1 ht).2
    simpa using this
  · intro t ht hne
    exact List.mem_filter.2 ⟨ht, by simpa using hne⟩

/-! ### Taxonomy store: bulk tag operations -/

inductive TagAction
  | add
  | doReplace
  | remove
deriving DecidableEq

/-- One bulk tagging operation, as sent by the frontend. -/
structure BulkTagOperation where
  action : TagAction
  talk_id : String
  taxonomy_value_ids : List Nat
deriving DecidableEq

def talkExists (db : DB) (tid : String) : Bool :=
  db.talks.any fun t => t.id == tid

def valueExists (db : DB) (vid : Nat) : Bool :=
  db.values.any fun v => v.id == vid

/-- Modelled from the spec: applying one add/replace/remove tagging
operation; none signals a per-operation failure (unknown talk id or unknown
taxonomy value id). Add respects the uniqueness of the association pair,
replace swaps out all manual tags of the talk, remove drops the given
pairs. -/
def applyTagOp (db : DB) (op : BulkTagOperation) : Option DB :=
  if !talkExists db op.talk_id then none
  else if op.taxonomy_value_ids.any (fun vid => !valueExists db vid) then none
  else some (match op.action with
    | .add =>
      { db with
          assocs := db.assocs
            ++ (op.taxonomy_value_ids.filter fun vid =>
                !(db.assocs.any fun a =>
                  a.talk_id == op.talk_id && a.taxonomy_value_id == vid)).map
              fun vid => { talk_id := op.talk_id, taxonomy_value_id := vid } }
    | .doReplace =>
      { db with
          assocs := (db.assocs.filter fun a => a.talk_id != op.talk_id)
            ++ op.taxonomy_value_ids.map
              fun vid => { talk_id := op.talk_id, taxonomy_value_id := vid } }
    | .remove =>
      { db with
          assocs := db.assocs.filter fun a =>
            !(a.talk_id == op.talk_id
              && op.taxonomy_value_ids.any fun vid =>
                  vid == a.taxonomy_value_id) })

/-- Modelled from the spec: `bulk_tag_operations` applies the operations in
order, continuing past a per-operation failure with the store unchanged by
the failed operation, and reports the list of failed operations alongside
the final store. -/
def bulk_tag_operations (db : DB) :
    List BulkTagOperation → DB × List BulkTagOperation
  | [] => (db, [])
  | op :: rest =>
    match applyTagOp db op with
    | some db2 => bulk_tag_operations db2 rest
    | none =>
      ((bulk_tag_operations db rest).1, op :: (bulk_tag_operations db rest).2)

/-- C8: a failing operation neither aborts nor rolls back the batch — the
remaining operations are processed against the unchanged store and the
failed operation is reported — while a succeeding operation takes effect
and the batch continues from the updated store. -/
theorem bulk_ops_continue (db : DB) (op : BulkTagOperation)
    (rest : List BulkTagOperation) :
    (applyTagOp db op = none →
        bulk_tag_operations db (op :: rest)
          = ((bulk_tag_operations db rest).1,
             op :: (bulk_tag_operations db rest).2))
      ∧ (∀ db2, applyTagOp db op = some db2 →
          bulk_tag_operations db (op :: rest) = bulk_tag_operations db2 rest) := by
  constructor
  · intro hfail
    simp [bulk_tag_operations, hfail]
  · intro db2 hok
    simp [bulk_tag_operations, hok]

/-! ### Fixtures for the taxonomy witnesses -/

def taxLevel : Taxonomy :=
  { id := 1, name := "Level", description := "", created_by := "system", is_system := true }

def taxArea : Taxonomy :=
  { id := 2, name := "Tech Areas", description := "", created_by := "system", is_system := false }

def valBeginner : TaxonomyValue :=
  { id := 10, taxonomy_id := 1, value := "Beginner", description := "", color := "" }

def valAdvanced : TaxonomyValue :=
  { id := 11, taxonomy_id := 1, value := "Advanced", description := "", color := "" }

def valWeb : TaxonomyValue :=
  { id := 20, taxonomy_id := 2, value := "Web Development", description := "", color := "" }

def assocBeginner : TalkTag := { talk_id := "talk-0", taxonomy_value_id := 10 }

def assocAdvanced : TalkTag := { talk_id := "talk-0", taxonomy_value_id := 11 }

def assocWeb : TalkTag := { talk_id := "talk-0", taxonomy_value_id := 20 }

def taggedDB : DB :=
  { talks := [storedTalk]
    taxonomies := [taxLevel, taxArea]
    values := [valBeginner, valAdvanced, valWeb]
    assocs := [assocBeginner, assocAdvanced, assocWeb]
    nextId := 1 }

/-- Witness for C7: deleting taxonomy 1 (two values, both tagged to the
talk) keeps the talk and everything of taxonomy 2, and drops taxonomy 1
rows and associations. -/
theorem delete_taxonomy_cascade_witness :
    (delete_taxonomy taggedDB 1).talks = taggedDB.talks
      ∧ assocBeginner ∉ (delete_taxonomy taggedDB 1).assocs
      ∧ assocWeb ∈ (delete_taxonomy taggedDB 1).assocs
      ∧ valWeb ∈ (delete_taxonomy taggedDB 1).values :=
  ⟨(delete_taxonomy_cascade taggedDB 1).1,
   (delete_taxonomy_cascade taggedDB 1).2.2.2.1 assocBeginner (by decide)
     ⟨valBeginner, by decide, rfl, rfl⟩,
   (delete_taxonomy_cascade taggedDB 1).2.2.2.2.1 assocWeb (by decide) (by decide),
   (delete_taxonomy_cascade taggedDB 1).2.2.1 valWeb (by decide) (by decide)⟩

def bulkDB : DB :=
  { talks := [storedTalk]
    taxonomies := [taxLevel, taxArea]
    values := [valBeginner, valWeb]
    assocs := []
    nextId := 1 }

def opAddBeginner : BulkTagOperation :=
  { action := TagAction.add, talk_id := "talk-0", taxonomy_value_ids := [10] }

def opRemoveUnknown : BulkTagOperation :=
  { action := TagAction.remove, talk_id := "talk-0", taxonomy_value_ids := [999] }

def bulkDBAfterAdd : DB :=
  { talks := [storedTalk]
    taxonomies := [taxLevel, taxArea]
    values := [valBeginner, valWeb]
    assocs := [assocBeginner]
    nextId := 1 }

/-- Witness for C8: one valid add followed by a remove with an unknown value
id applies the add, reports exactly the remove as failed, and the call
still returns. -/
theorem bulk_ops_continue_witness :
    (bulk_tag_operations bulkDB [opAddBeginner, opRemoveUnknown]).2
        = [opRemoveUnknown]
      ∧ assocBeginner
          ∈ (bulk_tag_operations bulkDB [opAddBeginner, opRemoveUnknown]).1.assocs := by
  have h1 := (bulk_ops_continue bulkDB opAddBeginner [opRemoveUnknown]).2
    bulkDBAfterAdd (by decide)
  have h2 := (bulk_ops_continue bulkDBAfterAdd opRemoveUnknown []).1 (by decide)
  rw [h1, h2]
  exact ⟨rfl, by decide⟩

/-! ### Frontend: fetchExplorerItems (frontend/src/utils/api.ts) -/

/-- One talk object of the backend search response body, carrying every
field the frontend mapping reads; a field the backend omitted is none
(undefined in the source). -/
structure BackendTalk where
  id : Option String
  title : Option String
  description : Option String
  event_date : Option String
  start_time : Option String
  created_at : Option String
  talk_type : Option String
  speaker_names : Option (List String)
  auto_tags : Option (List String)
  manual_tags : Option (List String)
  event_url : Option String
  source_url : Option String
  event_name : Option String
  room : Option String
  venue_name : Option String
  city : Option String
  going_count : Option Nat
  group_name : Option String
deriving DecidableEq

/-- The frontend ExplorerItem shape produced by the mapping. -/
structure ExplorerItem where
  id : Option String
  title : Option String
  description : Option String
  date : Option String
  platform : Option String
  speakers : List String
  tags : List String
  auto_tags : List String
  manual_tags : List String
  source_url : Option String
  event_name : Option String
  room : Option String
  venue_name : Option String
  city : Option String
  going_count : Option Nat
  group_name : Option String
deriving DecidableEq

/-- The per-talk mapping inside fetchExplorerItems: the JavaScript `a || b`
fallback on possibly-missing fields is option-level orElse, `x || []` is
the empty-list default. -/
def mapTalk (t : BackendTalk) : ExplorerItem :=
  { id := t.id
    title := t.title
    description := t.description
    date := (t.event_date.orElse fun _ => t.start_time).orElse fun _ => t.created_at
    platform := t.talk_type
    speakers := t.speaker_names.getD []
    tags := t.auto_tags.getD [] ++ t.manual_tags.getD []
    auto_tags := t.auto_tags.getD []
    manual_tags := t.manual_tags.getD []
    source_url := t.event_url.orElse fun _ => t.source_url
    event_name := t.event_name
    room := t.room
    venue_name := t.venue_name
    city := t.city
    going_count := t.going_count
    group_name := t.group_name }

/-- What the awaited fetch of the search endpoint can yield inside the try
block: a rejected fetch, a non-ok HTTP response, an ok response whose body
cannot be parsed or lacks a mappable talks array, or an ok body bearing a
talks array. -/
inductive BackendResponse
  | netError
  | notOk (status : Nat)
  | okUnmappable
  | okTalks (talks : List BackendTalk)
deriving DecidableEq

/-- The try-block semantics of fetchExplorerItems: each failure path raises
(the source throws on a non-ok status and propagates fetch/parse
rejections), the success path maps the talks array. -/
def fetchExplorerItemsRaw : BackendResponse → Except String (List ExplorerItem)
  | .netError => .error "fetch rejected"
  | .notOk s => .error ("HTTP error! status: " ++ toString s)
  | .okUnmappable => .error "TypeError"
  | .okTalks ts => .ok (ts.map mapTalk)

/-- Translation of fetchExplorerItems: the surrounding catch converts every
raised error into the empty list. -/
def fetchExplorerItems (r : BackendResponse) : List ExplorerItem :=
  match fetchExplorerItemsRaw r with
  | .ok v => v
  | .error _ => []

/-- C9: fetchExplorerItems never throws — every raised error is caught and
becomes the empty list (network rejection, non-ok status, unmappable body),
and on success it yields one ExplorerItem per returned talk whose tags are
the talk's auto tags followed by its manual tags. -/
theorem fetchExplorerItems_never_throws :
    (∀ r : BackendResponse,
        fetchExplorerItemsRaw r = Except.ok (fetchExplorerItems r)
          ∨ (fetchExplorerItems r = []
              ∧ ∃ e, fetchExplorerItemsRaw r = Except.error e))
      ∧ fetchExplorerItems BackendResponse.netError = []
      ∧ (∀ s, fetchExplorerItems (BackendResponse.notOk s) = [])
      ∧ fetchExplorerItems BackendResponse.okUnmappable = []
      ∧ (∀ ts, (fetchExplorerItems (BackendResponse.okTalks ts)).length = ts.length
          ∧ (fetchExplorerItems (BackendResponse.okTalks ts)).map ExplorerItem.tags
              = ts.map fun t => t.auto_tags.getD [] ++ t.manual_tags.getD []) := by
  refine ⟨?_, rfl, fun s => rfl, rfl, fun ts => ⟨?_, ?_⟩⟩
  · intro r
    cases r with
    | netError => exact Or.inr ⟨rfl, _, rfl⟩
    | notOk s => exact Or.inr ⟨rfl, _, rfl⟩
    | okUnmappable => exact Or.inr ⟨rfl, _, rfl⟩
    | okTalks ts => exact Or.inl rfl
  · simp [fetchExplorerItems, fetchExplorerItemsRaw]
  · show (ts.map mapTalk).map ExplorerItem.tags = _
    rw [List.map_map]
    rfl

/-! ### Frontend: taxonomy context helpers (frontend/src/contexts) -/

/-- The frontend Taxonomy shape of frontend/src/types/taxonomy.ts, with its
nested values. -/
structure FrontTaxonomyValue where
  id : Nat
  taxonomy_id : Nat
  value : String
  description : String
  color : String
  is_active : Bool
  created_at : String
deriving DecidableEq

structure FrontTaxonomy where
  id : Nat
  name : String
  description : String
  created_by : String
  is_system : Bool
  created_at : String
  values : List FrontTaxonomyValue
deriving DecidableEq

/-- Translation of getSystemTaxonomies of the TaxonomyContext. -/
def getSystemTaxonomies (taxonomies : List FrontTaxonomy) : List FrontTaxonomy :=
  taxonomies.filter fun t => t.is_system

/-- Translation of getUserTaxonomies of the TaxonomyContext. -/
def getUserTaxonomies (taxonomies : List FrontTaxonomy) : List FrontTaxonomy :=
  taxonomies.filter fun t => !t.is_system

/-- C10: the two context getters partition the taxonomies state — together
they contain every entry exactly once (as a permutation of the state list),
each preserves the relative order of the state list, and an entry lands in
the system list or the user list exactly according to its is_system flag. -/
theorem system_user_taxonomies_partition (l : List FrontTaxonomy)
    (t : FrontTaxonomy) :
    List.Perm (getSystemTaxonomies l ++ getUserTaxonomies l) l
      ∧ List.Sublist (getSystemTaxonomies l) l
      ∧ List.Sublist (getUserTaxonomies l) l
      ∧ (t ∈ getSystemTaxonomies l ↔ (t ∈ l ∧ t.is_system = true))
      ∧ (t ∈ getUserTaxonomies l ↔ (t ∈ l ∧ t.is_system = false)) := by
  refine ⟨List.filter_append_perm _ l, List.filter_sublist l,
    List.filter_sublist l, ?_, ?_⟩
  · simp [getSystemTaxonomies, List.mem_filter]
  · simp [getUserTaxonomies, List.mem_filter]

end TalkDB
